import Mathlib

/-!
Verification development for the PDF utility engine (`app/pdf_engine.py`).

The module under study exposes three static operations:

* `PdfEngine.merge_pdfs(input_files, output_path)`
* `PdfEngine.split_pdf(input_file, start_page, end_page, output_path)`
* `PdfEngine.pdf_to_docx(input_file, output_path)`

Each delegates the actual document work to an external engine (PyMuPDF /
pdf2docx).  We embed the control flow of the three Python functions as
state-passing interpreters over an explicit file-system-plus-engine state.
A PDF document is modelled as a list of opaque page tokens (naturals);
the external engine primitives (open, insert_pdf, save, Converter) are
modelled by their observable effect on that state, with the failure
behaviour of the opaque save / convert primitives left as an oracle
parameter of the state, because the wrapped library gives no guarantee
about what a failed save leaves on disk.
-/

namespace PdfEditor

/-- Model of the Python exception values that can cross the engine
boundary.  `runtimeError` keeps the wrapped cause, mirroring
`raise RuntimeError(...) from exc`. -/
inductive PyExc where
  | valueError (msg : String)
  | fileNotFoundError (msg : String)
  | engineError (msg : String)
  | runtimeError (msg : String) (cause : PyExc)
deriving Repr, DecidableEq

/-- `str(exc)` as used by the f-strings in the except clauses. -/
def PyExc.message : PyExc → String
  | .valueError m => m
  | .fileNotFoundError m => m
  | .engineError m => m
  | .runtimeError m _ => m

/-- True exactly for the `RuntimeError` wrappers produced by the
`except Exception` clauses (the MergeFailed / SplitFailed / ConvertFailed
outcomes of the specification taxonomy). -/
def PyExc.isRuntimeError : PyExc → Bool
  | .runtimeError _ _ => true
  | _ => false

/-- Observable I/O and engine effects, recorded in execution order. -/
inductive Eff where
  | queryExists (p : String)
  | openDoc (p : String)
  | openEmpty
  | insertPages
  | queryIsDir (d : String)
  | saveDoc (p : String)
  | closeDoc
  | openConverter (p : String)
  | runConvert (p : String)
  | closeConverter
deriving Repr, DecidableEq

/-- Behaviour of the opaque engine write primitive (`Document.save`,
`Converter.convert`).  The wrapped library does not document what a
failed save leaves at the target path, so the model is parametric:
a failed save either leaves nothing (`failsClean`) or leaves a
truncated artifact at the target path (`failsDirty`). -/
inductive SaveBehavior where
  | succeeds
  | failsClean
  | failsDirty
deriving Repr, DecidableEq

/-- File-system plus engine-oracle state.

* `files` — the regular files on disk: path paired with page content
  (first entry for a path wins on lookup, so writing prepends).
* `dirs` — the existing directories.
* `parent` — `os.path.dirname(os.path.abspath ·)`, abstracted as a
  function on paths.
* `saveBehavior` / `convertBehavior` — the engine oracle for the two
  opaque write primitives. -/
structure FS where
  files : List (String × List Nat)
  dirs : List String
  parent : String → String
  saveBehavior : SaveBehavior
  convertBehavior : SaveBehavior

/-- `os.path.exists`: true for a regular file or a directory. -/
def FS.pathExists (fs : FS) (p : String) : Bool :=
  (fs.files.lookup p).isSome || fs.dirs.contains p

/-- `os.path.dirname(os.path.abspath(p)) or "."` as computed at the
output-directory checks of all three operations. -/
def FS.outputDir (fs : FS) (output_path : String) : String :=
  let d := fs.parent output_path
  if d = "" then "." else d

/-- Result of one engine operation: the Python outcome (normal return or
escaping exception), the files and directories on disk afterwards, the
effect trace, and the number of engine handles still open when control
returns to the caller. -/
structure Outcome where
  result : Except PyExc Unit
  filesOut : List (String × List Nat)
  dirsOut : List String
  trace : List Eff
  openAtExit : Nat
deriving Repr

/-- `raise RuntimeError(f"Failed to merge PDFs: {exc}") from exc`. -/
def wrapMerge (e : PyExc) : PyExc :=
  .runtimeError ("Failed to merge PDFs: " ++ e.message) e

/-- `raise RuntimeError(f"Failed to split PDF: {exc}") from exc`. -/
def wrapSplit (e : PyExc) : PyExc :=
  .runtimeError ("Failed to split PDF: " ++ e.message) e

/-- `raise RuntimeError(f"Failed to convert PDF to DOCX: {exc}") from exc`. -/
def wrapConvert (e : PyExc) : PyExc :=
  .runtimeError ("Failed to convert PDF to DOCX: " ++ e.message) e

/-- The body of the `for path in input_files` loop of `merge_pdfs`
(lines 37-43): per path, an `os.path.exists` check raising
`FileNotFoundError` on a miss, then `with fitz.open(path) as src:
merged.insert_pdf(src)` — the context manager closes `src` on every
path.  Returns the accumulated pages of `merged` and the trace. -/
def mergeLoop (fs : FS) : List String → List Nat → Except PyExc (List Nat) × List Eff
  | [], acc => (.ok acc, [])
  | p :: rest, acc =>
    if (fs.files.lookup p).isSome then
      let step := mergeLoop fs rest (acc ++ (fs.files.lookup p).getD [])
      (step.1, Eff.queryExists p :: Eff.openDoc p :: Eff.insertPages :: Eff.closeDoc :: step.2)
    else if fs.dirs.contains p then
      -- the path exists but is a directory: the engine open call fails
      (.error (.engineError ("cannot open " ++ p)),
        [Eff.queryExists p, Eff.openDoc p])
    else
      (.error (.fileNotFoundError ("File not found: " ++ p)), [Eff.queryExists p])

/-- `PdfEngine.merge_pdfs` (lines 21-57).  The empty-input `ValueError`
is raised before `fitz.open()`; everything after that sits inside
`try ... except Exception: raise RuntimeError(...)``finally: merged.close()`,
so every exception of the body escapes wrapped and `merged` is closed on
every exit path. -/
def merge_pdfs (fs : FS) (input_files : List String) (output_path : String) : Outcome :=
  if input_files.isEmpty then
    { result := .error (.valueError "there is no input files provided to merge."),
      filesOut := fs.files, dirsOut := fs.dirs, trace := [], openAtExit := 0 }
  else
    let step := mergeLoop fs input_files []
    match step.1 with
    | .error e =>
      { result := .error (wrapMerge e), filesOut := fs.files, dirsOut := fs.dirs,
        trace := Eff.openEmpty :: step.2 ++ [Eff.closeDoc], openAtExit := 0 }
    | .ok pages =>
      let od := fs.outputDir output_path
      if fs.dirs.contains od = false then
        { result := .error (wrapMerge (.fileNotFoundError
            ("Output directory does not exist: " ++ od))),
          filesOut := fs.files, dirsOut := fs.dirs,
          trace := Eff.openEmpty :: step.2 ++ [Eff.queryIsDir od, Eff.closeDoc],
          openAtExit := 0 }
      else
        match fs.saveBehavior with
        | .succeeds =>
          { result := .ok (), filesOut := (output_path, pages) :: fs.files,
            dirsOut := fs.dirs,
            trace := Eff.openEmpty :: step.2
              ++ [Eff.queryIsDir od, Eff.saveDoc output_path, Eff.closeDoc],
            openAtExit := 0 }
        | .failsClean =>
          { result := .error (wrapMerge (.engineError "save failed")),
            filesOut := fs.files, dirsOut := fs.dirs,
            trace := Eff.openEmpty :: step.2
              ++ [Eff.queryIsDir od, Eff.saveDoc output_path, Eff.closeDoc],
            openAtExit := 0 }
        | .failsDirty =>
          { result := .error (wrapMerge (.engineError "save failed")),
            filesOut := (output_path, []) :: fs.files, dirsOut := fs.dirs,
            trace := Eff.openEmpty :: step.2
              ++ [Eff.queryIsDir od, Eff.saveDoc output_path, Eff.closeDoc],
            openAtExit := 0 }

/-- The error kinds of the specification taxonomy raised by page-range
validation. -/
inductive RangeErrKind where
  | invalidRange
  | rangeExceedsDocument
deriving Repr, DecidableEq

/-- The page-range validation of `split_pdf` (lines 80-87): three checks
in source order, each raising a `ValueError` with the message of the
corresponding raise site.  The first two sites are the `InvalidRange`
kind of the specification taxonomy, the third is `RangeExceedsDocument`. -/
def validate_page_range (start_page end_page total_pages : Int) :
    Option (RangeErrKind × String) :=
  if start_page < 1 || end_page < 1 then
    some (.invalidRange, "Page numbers must be >= 1.")
  else if start_page > end_page then
    some (.invalidRange, "Start page cannot be greater than end page.")
  else if end_page > total_pages then
    some (.rangeExceedsDocument,
      "End page " ++ toString end_page ++ " exceeds document page count "
        ++ toString total_pages ++ ".")
  else
    none

/-- The pages inserted by `new_doc.insert_pdf(src, from_page=start_page-1,
to_page=end_page-1)` (lines 92-96): the 0-based inclusive slice
`[start_page-1, end_page-1]` of the source pages. -/
def extractedPages (pages : List Nat) (start_page end_page : Int) : List Nat :=
  (pages.drop (start_page - 1).toNat).take (end_page - start_page + 1).toNat

/-- `PdfEngine.split_pdf` (lines 59-109).  The source-existence
`FileNotFoundError` is raised before the `try`, so it escapes unwrapped;
every later exception is wrapped by `except Exception: raise
RuntimeError(f"Failed to split PDF: {exc}")`.  `src` is closed by its
`with` block and `new_doc` by the inner `finally`, on every path. -/
def split_pdf (fs : FS) (input_file : String) (start_page end_page : Int)
    (output_path : String) : Outcome :=
  if fs.pathExists input_file = false then
    { result := .error (.fileNotFoundError ("Source file not found: " ++ input_file)),
      filesOut := fs.files, dirsOut := fs.dirs,
      trace := [Eff.queryExists input_file], openAtExit := 0 }
  else
    match fs.files.lookup input_file with
    | none =>
      -- the path exists but is a directory: `fitz.open` fails, wrapped
      { result := .error (wrapSplit (.engineError ("cannot open " ++ input_file))),
        filesOut := fs.files, dirsOut := fs.dirs,
        trace := [Eff.queryExists input_file, Eff.openDoc input_file],
        openAtExit := 0 }
    | some pages =>
      match validate_page_range start_page end_page (pages.length : Int) with
      | some err =>
        { result := .error (wrapSplit (.valueError err.2)),
          filesOut := fs.files, dirsOut := fs.dirs,
          trace := [Eff.queryExists input_file, Eff.openDoc input_file, Eff.closeDoc],
          openAtExit := 0 }
      | none =>
        let od := fs.outputDir output_path
        if fs.dirs.contains od = false then
          { result := .error (wrapSplit (.fileNotFoundError
              ("Output directory does not exist: " ++ od))),
            filesOut := fs.files, dirsOut := fs.dirs,
            trace := [Eff.queryExists input_file, Eff.openDoc input_file,
              Eff.openEmpty, Eff.insertPages, Eff.queryIsDir od,
              Eff.closeDoc, Eff.closeDoc],
            openAtExit := 0 }
        else
          match fs.saveBehavior with
          | .succeeds =>
            { result := .ok (),
              filesOut := (output_path, extractedPages pages start_page end_page)
                :: fs.files,
              dirsOut := fs.dirs,
              trace := [Eff.queryExists input_file, Eff.openDoc input_file,
                Eff.openEmpty, Eff.insertPages, Eff.queryIsDir od,
                Eff.saveDoc output_path, Eff.closeDoc, Eff.closeDoc],
              openAtExit := 0 }
          | .failsClean =>
            { result := .error (wrapSplit (.engineError "save failed")),
              filesOut := fs.files, dirsOut := fs.dirs,
              trace := [Eff.queryExists input_file, Eff.openDoc input_file,
                Eff.openEmpty, Eff.insertPages, Eff.queryIsDir od,
                Eff.saveDoc output_path, Eff.closeDoc, Eff.closeDoc],
              openAtExit := 0 }
          | .failsDirty =>
            { result := .error (wrapSplit (.engineError "save failed")),
              filesOut := (output_path, []) :: fs.files, dirsOut := fs.dirs,
              trace := [Eff.queryExists input_file, Eff.openDoc input_file,
                Eff.openEmpty, Eff.insertPages, Eff.queryIsDir od,
                Eff.saveDoc output_path, Eff.closeDoc, Eff.closeDoc],
              openAtExit := 0 }

/-- `PdfEngine.pdf_to_docx` (lines 111-138).  The source-existence
`FileNotFoundError` is raised before the `try` and escapes unwrapped;
the output-directory check happens before the converter is constructed;
`cv = Converter(input_file); cv.convert(output_path); cv.close()` has no
`finally`, so when `cv.convert` raises, the `except` clause re-raises a
`RuntimeError` while the converter handle is still open.  The converted
document content is modelled as the source pages. -/
def pdf_to_docx (fs : FS) (input_file : String) (output_path : String) : Outcome :=
  if fs.pathExists input_file = false then
    { result := .error (.fileNotFoundError ("Source file not found: " ++ input_file)),
      filesOut := fs.files, dirsOut := fs.dirs,
      trace := [Eff.queryExists input_file], openAtExit := 0 }
  else
    let od := fs.outputDir output_path
    if fs.dirs.contains od = false then
      { result := .error (wrapConvert (.fileNotFoundError
          ("Output directory does not exist: " ++ od))),
        filesOut := fs.files, dirsOut := fs.dirs,
        trace := [Eff.queryExists input_file, Eff.queryIsDir od],
        openAtExit := 0 }
    else
      match fs.convertBehavior with
      | .succeeds =>
        { result := .ok (),
          filesOut := (output_path, ((fs.files.lookup input_file).getD []))
            :: fs.files,
          dirsOut := fs.dirs,
          trace := [Eff.queryExists input_file, Eff.queryIsDir od,
            Eff.openConverter input_file, Eff.runConvert output_path,
            Eff.closeConverter],
          openAtExit := 0 }
      | .failsClean =>
        { result := .error (wrapConvert (.engineError "convert failed")),
          filesOut := fs.files, dirsOut := fs.dirs,
          trace := [Eff.queryExists input_file, Eff.queryIsDir od,
            Eff.openConverter input_file, Eff.runConvert output_path],
          openAtExit := 1 }
      | .failsDirty =>
        { result := .error (wrapConvert (.engineError "convert failed")),
          filesOut := (output_path, []) :: fs.files, dirsOut := fs.dirs,
          trace := [Eff.queryExists input_file, Eff.queryIsDir od,
            Eff.openConverter input_file, Eff.runConvert output_path],
          openAtExit := 1 }

/-- True when the operation raised (any Python exception escaped). -/
def Outcome.failed (o : Outcome) : Bool :=
  match o.result with
  | .error _ => true
  | .ok _ => false

/-- True when the operation raised one of the `RuntimeError` wrappers
(the MergeFailed / SplitFailed / ConvertFailed taxonomy kinds). -/
def Outcome.errorIsWrapped (o : Outcome) : Bool :=
  match o.result with
  | .error e => e.isRuntimeError
  | .ok _ => false

/-- True for the effects that attempt to write an output file
(a document save or a converter run). -/
def Eff.isWrite : Eff → Bool
  | .saveDoc _ => true
  | .runConvert _ => true
  | _ => false

end PdfEditor

namespace PdfEditor

theorem validate_page_range_eq_none_iff (start_page end_page total_pages : Int) :
    validate_page_range start_page end_page total_pages = none
      ↔ 1 ≤ start_page ∧ start_page ≤ end_page ∧ end_page ≤ total_pages := by
  unfold validate_page_range
  split_ifs with h1 h2 h3 <;> simp_all
  omega

theorem FS.pathExists_of_lookup (fs : FS) (p : String) (v : List Nat)
    (h : fs.files.lookup p = some v) : fs.pathExists p = true := by
  unfold FS.pathExists
  simp [h]

theorem mergeLoop_ok_of_all_exist (fs : FS) (paths : List String) (acc : List Nat)
    (hex : ∀ p ∈ paths, (fs.files.lookup p).isSome) :
    (mergeLoop fs paths acc).1
      = .ok (acc ++ (paths.map (fun p => (fs.files.lookup p).getD [])).flatten) := by
  induction paths generalizing acc with
  | nil => simp [mergeLoop]
  | cons p rest ih =>
    have hp : (fs.files.lookup p).isSome := hex p (by simp)
    have hrest : ∀ q ∈ rest, (fs.files.lookup q).isSome := fun q hq => hex q (by simp [hq])
    simp [mergeLoop, hp, ih _ hrest, List.append_assoc]

theorem mergeLoop_no_write (fs : FS) (paths : List String) (acc : List Nat) :
    (mergeLoop fs paths acc).2.any Eff.isWrite = false := by
  induction paths generalizing acc with
  | nil => simp [mergeLoop]
  | cons p rest ih =>
    by_cases hp : (fs.files.lookup p).isSome
    · simpa [mergeLoop, hp, Eff.isWrite] using ih (acc ++ (fs.files.lookup p).getD [])
    · by_cases hd : p ∈ fs.dirs
      · simp [mergeLoop, hp, hd, Eff.isWrite]
      · simp [mergeLoop, hp, hd, Eff.isWrite]

/-- C4: page-range validation applies its three checks in the fixed source
order — non-positive bound, then start above end, then end above the page
count — so the first applicable failure is reported deterministically:
start = 0, end = 0 on a 5-page document yields `InvalidRange`; start above
end yields `InvalidRange` for every total; end above the total with
1 ≤ start ≤ end yields `RangeExceedsDocument`; and a range satisfying
1 ≤ start ≤ end ≤ total validates successfully. -/
theorem C4_validate_page_range_fixed_order :
    (validate_page_range 0 0 5).map Prod.fst = some RangeErrKind.invalidRange
    ∧ (∀ s e t : Int, s > e →
        (validate_page_range s e t).map Prod.fst = some RangeErrKind.invalidRange)
    ∧ (∀ s e t : Int, 1 ≤ s → s ≤ e → t < e →
        (validate_page_range s e t).map Prod.fst = some RangeErrKind.rangeExceedsDocument)
    ∧ (∀ s e t : Int, 1 ≤ s → s ≤ e → e ≤ t →
        validate_page_range s e t = none) := by
  refine ⟨by decide, ?_, ?_, ?_⟩
  · intro s e t h
    unfold validate_page_range
    split_ifs with g1 g2 g3 <;> simp_all <;> omega
  · intro s e t h1 h2 h3
    unfold validate_page_range
    split_ifs with g1 g2 g3 <;> simp_all <;> omega
  · intro s e t h1 h2 h3
    exact (validate_page_range_eq_none_iff s e t).mpr ⟨h1, h2, h3⟩

theorem C4_witness :
    (validate_page_range 5 3 10).map Prod.fst = some RangeErrKind.invalidRange
    ∧ (validate_page_range 1 11 10).map Prod.fst = some RangeErrKind.rangeExceedsDocument
    ∧ validate_page_range 2 4 10 = none :=
  ⟨C4_validate_page_range_fixed_order.2.1 5 3 10 (by decide),
   C4_validate_page_range_fixed_order.2.2.1 1 11 10 (by decide) (by decide) (by decide),
   C4_validate_page_range_fixed_order.2.2.2 2 4 10 (by decide) (by decide) (by decide)⟩

/-- C8: merging an empty FileSet fails with the empty-input `ValueError`
raised before the engine document is opened, the effect trace is empty
(no file opened, no existence query, no write), and the file system is
untouched. -/
theorem C8_merge_empty_fileset_no_io (fs : FS) (output_path : String) :
    (merge_pdfs fs [] output_path).result
        = .error (.valueError "there is no input files provided to merge.")
      ∧ (merge_pdfs fs [] output_path).trace = []
      ∧ (merge_pdfs fs [] output_path).filesOut = fs.files
      ∧ (merge_pdfs fs [] output_path).dirsOut = fs.dirs := by
  exact ⟨rfl, rfl, rfl, rfl⟩

/-- C10: on a zero-page source document, `split_pdf` fails for every
(start, end) pair — the three-check chain can never be passed when the
total page count is 0 — the file system is untouched and no save effect
is ever attempted. -/
theorem C10_split_zero_page_document_always_fails (fs : FS)
    (input_file output_path : String) (start_page end_page : Int)
    (hfile : fs.files.lookup input_file = some []) :
    (split_pdf fs input_file start_page end_page output_path).failed = true
    ∧ (split_pdf fs input_file start_page end_page output_path).filesOut = fs.files
    ∧ (split_pdf fs input_file start_page end_page output_path).trace.any
        Eff.isWrite = false := by
  have hex := fs.pathExists_of_lookup input_file [] hfile
  rcases hv : validate_page_range start_page end_page (0 : Int) with _ | err
  · rw [validate_page_range_eq_none_iff] at hv
    omega
  · refine ⟨?_, ?_, ?_⟩ <;>
      simp [split_pdf, hex, hfile, hv, Outcome.failed, Eff.isWrite]

/-- C5: for a valid range 1 ≤ start ≤ end ≤ total on an existing source
document, `split_pdf` succeeds and writes exactly the 0-based slice
[start-1, end-1] of the source pages — end − start + 1 pages in source
order — and the range 1..1 yields exactly the first page. -/
theorem C5_split_extracts_exact_slice (fs : FS) (input_file output_path : String)
    (start_page end_page : Int) (pages : List Nat)
    (hfile : fs.files.lookup input_file = some pages)
    (h1 : 1 ≤ start_page) (h2 : start_page ≤ end_page)
    (h3 : end_page ≤ (pages.length : Int))
    (hdir : fs.outputDir output_path ∈ fs.dirs)
    (hsave : fs.saveBehavior = SaveBehavior.succeeds) :
    (split_pdf fs input_file start_page end_page output_path).result = .ok ()
    ∧ (split_pdf fs input_file start_page end_page output_path).filesOut.lookup
        output_path = some (extractedPages pages start_page end_page)
    ∧ ((extractedPages pages start_page end_page).length : Int)
        = end_page - start_page + 1
    ∧ extractedPages pages 1 1 = pages.take 1 := by
  have hex := fs.pathExists_of_lookup input_file pages hfile
  have hv : validate_page_range start_page end_page ((pages.length : Nat) : Int) = none :=
    (validate_page_range_eq_none_iff _ _ _).mpr ⟨h1, h2, h3⟩
  refine ⟨?_, ?_, ?_, ?_⟩
  · simp [split_pdf, hex, hfile, hv, hdir, hsave]
  · simp [split_pdf, hex, hfile, hv, hdir, hsave, List.lookup]
  · simp [extractedPages, List.length_take, List.length_drop]
    omega
  · simp [extractedPages]

/-- C6: merging a non-empty FileSet of existing documents into a valid
output location succeeds, and the output document is the concatenation of
the source documents pages, taken in FileSet order with one contribution
per occurrence. -/
theorem C6_merge_concatenates_in_order (fs : FS) (input_files : List String)
    (output_path : String)
    (hne : input_files ≠ [])
    (hex : ∀ p ∈ input_files, (fs.files.lookup p).isSome)
    (hdir : fs.outputDir output_path ∈ fs.dirs)
    (hsave : fs.saveBehavior = SaveBehavior.succeeds) :
    (merge_pdfs fs input_files output_path).result = .ok ()
    ∧ (merge_pdfs fs input_files output_path).filesOut.lookup output_path
        = some ((input_files.map (fun p => (fs.files.lookup p).getD [])).flatten) := by
  have hloop := mergeLoop_ok_of_all_exist fs input_files [] hex
  have hne2 : input_files.isEmpty = false := by
    cases input_files with
    | nil => exact absurd rfl hne
    | cons a l => rfl
  constructor <;> simp [merge_pdfs, hne2, hloop, hdir, hsave, List.lookup]

/-- C7: extracting the full range [1, N] of an N-page document with
`split_pdf` and then merging the singleton FileSet holding only the
extracted file reproduces a document with exactly the original N pages
in original order. -/
theorem C7_extract_all_then_merge_roundtrip (fs : FS) (doc out1 out2 : String)
    (pages : List Nat)
    (hfile : fs.files.lookup doc = some pages)
    (hN : 1 ≤ pages.length)
    (hdir1 : fs.outputDir out1 ∈ fs.dirs)
    (hdir2 : fs.outputDir out2 ∈ fs.dirs)
    (hsave : fs.saveBehavior = SaveBehavior.succeeds) :
    (merge_pdfs
        { fs with files := (split_pdf fs doc 1 (pages.length : Int) out1).filesOut }
        [out1] out2).result = .ok ()
    ∧ ((merge_pdfs
        { fs with files := (split_pdf fs doc 1 (pages.length : Int) out1).filesOut }
        [out1] out2).filesOut.lookup out2 = some pages) := by
  have hex := fs.pathExists_of_lookup doc pages hfile
  have hv : validate_page_range 1 ((pages.length : Nat) : Int)
      ((pages.length : Nat) : Int) = none :=
    (validate_page_range_eq_none_iff _ _ _).mpr
      ⟨le_refl 1, by exact_mod_cast hN, le_refl _⟩
  have hext : extractedPages pages 1 ((pages.length : Nat) : Int) = pages := by
    simp [extractedPages, sub_self, sub_add_cancel, Int.toNat_natCast]
  have hsplit : (split_pdf fs doc 1 ((pages.length : Nat) : Int) out1).filesOut
      = (out1, pages) :: fs.files := by
    simp [split_pdf, hex, hfile, hv, hdir1, hsave, hext]
  have hdir2b : (if fs.parent out2 = "" then "." else fs.parent out2) ∈ fs.dirs := hdir2
  constructor <;>
    simp [hsplit, merge_pdfs, mergeLoop, List.lookup, hdir2b, hsave, FS.outputDir]

/-- Demo state: a 3-page document A, a 2-page document B, a 10-page
document, a zero-page document, one existing directory, and a
well-behaved engine. -/
def fsDemo : FS :=
  { files := [("A.pdf", [10, 11, 12]), ("B.pdf", [20, 21]),
      ("doc.pdf", [0, 1, 2, 3, 4, 5, 6, 7, 8, 9]), ("empty.pdf", [])],
    dirs := ["/work"],
    parent := fun _ => "/work",
    saveBehavior := .succeeds,
    convertBehavior := .succeeds }

/-- State for the missing-input scenario: one existing document, one
existing directory, and a well-behaved engine. -/
def fsMissing : FS :=
  { files := [("A.pdf", [10, 11, 12])],
    dirs := ["/work"],
    parent := fun _ => "/work",
    saveBehavior := .succeeds,
    convertBehavior := .succeeds }

/-- State for the missing-output-directory scenario: existing documents
but no directory at all, so every resolved output parent is missing. -/
def fsNoDir : FS :=
  { files := [("A.pdf", [10, 11, 12]), ("doc.pdf", [0, 1, 2])],
    dirs := [],
    parent := fun _ => "/nodir",
    saveBehavior := .succeeds,
    convertBehavior := .succeeds }

/-- State whose engine save fails and leaves a truncated artifact at the
target path, which the wrapped library permits. -/
def fsDirty : FS :=
  { files := [("A.pdf", [10, 11, 12])],
    dirs := ["/work"],
    parent := fun _ => "/work",
    saveBehavior := .failsDirty,
    convertBehavior := .succeeds }

/-- State whose conversion call fails (cleanly, leaving no artifact). -/
def fsConvFail : FS :=
  { files := [("A.pdf", [10, 11, 12])],
    dirs := ["/work"],
    parent := fun _ => "/work",
    saveBehavior := .succeeds,
    convertBehavior := .failsClean }

/-- C1: evaluation of `merge_pdfs` at the failing input. Merging a
FileSet whose first missing path is "ghost1.pdf" fails before any output
is created and the error message names the first missing path in list
order, but the exception that escapes is the `RuntimeError` wrapper
built by the except clause at line 54, not the `FileNotFoundError` that
the docstring at line 28 promises: the `FileNotFoundError` raised at
line 39 sits inside the try block whose except clause rewraps every
exception. -/
theorem C1_merge_missing_file_error_is_wrapped :
    (merge_pdfs fsMissing ["A.pdf", "ghost1.pdf", "ghost2.pdf"] "/work/out.pdf").result
      = .error (.runtimeError "Failed to merge PDFs: File not found: ghost1.pdf"
          (.fileNotFoundError "File not found: ghost1.pdf"))
    ∧ (merge_pdfs fsMissing ["A.pdf", "ghost1.pdf", "ghost2.pdf"] "/work/out.pdf").filesOut
        = fsMissing.files
    ∧ (merge_pdfs fsMissing ["A.pdf", "ghost1.pdf", "ghost2.pdf"] "/work/out.pdf").trace.any
        Eff.isWrite = false := by
  refine ⟨rfl, by decide, by decide⟩

/-- C2 counterexample: with an existing input file and a missing parent
directory for the output path, `merge_pdfs` does not surface a distinct
directory validation error: the `FileNotFoundError` raised at line 48 is
rewrapped by the except clause, so the escaping exception is the
`RuntimeError` (MergeFailed) wrapper, refuting the claimed distinctness
from the MergeFailed kind. -/
theorem C2_counterexample_dir_error_wrapped :
    (merge_pdfs fsNoDir ["A.pdf"] "out.pdf").result
      = .error (.runtimeError
          "Failed to merge PDFs: Output directory does not exist: /nodir"
          (.fileNotFoundError "Output directory does not exist: /nodir"))
    ∧ (merge_pdfs fsNoDir ["A.pdf"] "out.pdf").errorIsWrapped = true := by
  refine ⟨rfl, by decide⟩

/-- C2 amended: for each of the three operations invoked with an output
path whose resolved parent directory does not exist, the operation fails
before any write attempt, no file or directory is created, and the error
message names the missing directory — but the surfaced error kind is the
operations wrapped RuntimeError (MergeFailed / SplitFailed /
ConvertFailed carrying the directory message), not a distinct
DirectoryNotFound validation kind, because the check sits inside each
try block. -/
theorem C2_amended_dir_check_before_write (fs : FS) (input_files : List String)
    (input_file output_path : String) (start_page end_page : Int) (pages : List Nat)
    (hdir : fs.outputDir output_path ∉ fs.dirs)
    (hne : input_files ≠ [])
    (hex : ∀ p ∈ input_files, (fs.files.lookup p).isSome)
    (hfile : fs.files.lookup input_file = some pages)
    (hrange : validate_page_range start_page end_page ((pages.length : Nat) : Int) = none) :
    ((merge_pdfs fs input_files output_path).result
        = .error (wrapMerge (.fileNotFoundError
            ("Output directory does not exist: " ++ fs.outputDir output_path)))
      ∧ (merge_pdfs fs input_files output_path).filesOut = fs.files
      ∧ (merge_pdfs fs input_files output_path).dirsOut = fs.dirs
      ∧ (merge_pdfs fs input_files output_path).trace.any Eff.isWrite = false)
    ∧ ((split_pdf fs input_file start_page end_page output_path).result
        = .error (wrapSplit (.fileNotFoundError
            ("Output directory does not exist: " ++ fs.outputDir output_path)))
      ∧ (split_pdf fs input_file start_page end_page output_path).filesOut = fs.files
      ∧ (split_pdf fs input_file start_page end_page output_path).dirsOut = fs.dirs
      ∧ (split_pdf fs input_file start_page end_page output_path).trace.any
          Eff.isWrite = false)
    ∧ ((pdf_to_docx fs input_file output_path).result
        = .error (wrapConvert (.fileNotFoundError
            ("Output directory does not exist: " ++ fs.outputDir output_path)))
      ∧ (pdf_to_docx fs input_file output_path).filesOut = fs.files
      ∧ (pdf_to_docx fs input_file output_path).dirsOut = fs.dirs
      ∧ (pdf_to_docx fs input_file output_path).trace.any Eff.isWrite = false) := by
  have hloop := mergeLoop_ok_of_all_exist fs input_files [] hex
  have hnw := mergeLoop_no_write fs input_files []
  have hne2 : input_files.isEmpty = false := by
    cases input_files with
    | nil => exact absurd rfl hne
    | cons a l => rfl
  have hex2 := fs.pathExists_of_lookup input_file pages hfile
  refine ⟨⟨?_, ?_, ?_, ?_⟩, ⟨?_, ?_, ?_, ?_⟩, ⟨?_, ?_, ?_, ?_⟩⟩ <;>
    simp [merge_pdfs, split_pdf, pdf_to_docx, hne2, hloop, hnw, hdir, hex2, hfile,
      hrange, Eff.isWrite]

theorem C2_witness :
    ((merge_pdfs fsNoDir ["A.pdf"] "out.pdf").result
        = .error (wrapMerge (.fileNotFoundError
            ("Output directory does not exist: " ++ fsNoDir.outputDir "out.pdf")))
      ∧ (merge_pdfs fsNoDir ["A.pdf"] "out.pdf").filesOut = fsNoDir.files
      ∧ (merge_pdfs fsNoDir ["A.pdf"] "out.pdf").dirsOut = fsNoDir.dirs
      ∧ (merge_pdfs fsNoDir ["A.pdf"] "out.pdf").trace.any Eff.isWrite = false)
    ∧ ((split_pdf fsNoDir "doc.pdf" 1 1 "out.pdf").result
        = .error (wrapSplit (.fileNotFoundError
            ("Output directory does not exist: " ++ fsNoDir.outputDir "out.pdf")))
      ∧ (split_pdf fsNoDir "doc.pdf" 1 1 "out.pdf").filesOut = fsNoDir.files
      ∧ (split_pdf fsNoDir "doc.pdf" 1 1 "out.pdf").dirsOut = fsNoDir.dirs
      ∧ (split_pdf fsNoDir "doc.pdf" 1 1 "out.pdf").trace.any Eff.isWrite = false)
    ∧ ((pdf_to_docx fsNoDir "doc.pdf" "out.pdf").result
        = .error (wrapConvert (.fileNotFoundError
            ("Output directory does not exist: " ++ fsNoDir.outputDir "out.pdf")))
      ∧ (pdf_to_docx fsNoDir "doc.pdf" "out.pdf").filesOut = fsNoDir.files
      ∧ (pdf_to_docx fsNoDir "doc.pdf" "out.pdf").dirsOut = fsNoDir.dirs
      ∧ (pdf_to_docx fsNoDir "doc.pdf" "out.pdf").trace.any Eff.isWrite = false) :=
  C2_amended_dir_check_before_write fsNoDir ["A.pdf"] "doc.pdf" "out.pdf" 1 1
    [0, 1, 2] (by decide) (by decide) (by decide) (by decide) (by decide)

/-- C3 counterexample: when the engine save fails after partially
writing — a behaviour the wrapped library permits — a failed merge
leaves a truncated artifact at the output path, because the code has no
cleanup on the failure path: the operation is not atomic for every
failure kind at every point. -/
theorem C3_counterexample_dirty_save_leaves_artifact :
    (merge_pdfs fsDirty ["A.pdf"] "/work/out.pdf").failed = true
    ∧ fsDirty.files.lookup "/work/out.pdf" = none
    ∧ ((merge_pdfs fsDirty ["A.pdf"] "/work/out.pdf").filesOut.lookup
        "/work/out.pdf").isSome = true := by
  refine ⟨by decide, by decide, by decide⟩

/-- C3 amended: each operation writes exactly one output file at the
target path on success and leaves no file there on failure, provided
the engine write primitive itself does not fail leaving a truncated
artifact — the code stages nothing and performs no cleanup, so an
engine-side dirty save failure leaves a partial file behind. Stated for
a target path not initially present: the lookup of the output path in
the resulting file system is occupied exactly when the operation
succeeded. -/
theorem C3_amended_atomic_unless_engine_dirty (fs : FS) (input_files : List String)
    (input_file output_path : String) (start_page end_page : Int)
    (hsave : fs.saveBehavior ≠ SaveBehavior.failsDirty)
    (hconv : fs.convertBehavior ≠ SaveBehavior.failsDirty)
    (hout : fs.files.lookup output_path = none) :
    ((merge_pdfs fs input_files output_path).filesOut.lookup output_path).isSome
        = !(merge_pdfs fs input_files output_path).failed
    ∧ ((split_pdf fs input_file start_page end_page output_path).filesOut.lookup
          output_path).isSome
        = !(split_pdf fs input_file start_page end_page output_path).failed
    ∧ ((pdf_to_docx fs input_file output_path).filesOut.lookup output_path).isSome
        = !(pdf_to_docx fs input_file output_path).failed := by
  refine ⟨?_, ?_, ?_⟩
  · by_cases h0 : input_files.isEmpty
    · simp [merge_pdfs, h0, Outcome.failed, hout]
    · rcases hml : (mergeLoop fs input_files []).1 with e | pages
      · simp [merge_pdfs, h0, hml, Outcome.failed, hout]
      · by_cases hd : fs.outputDir output_path ∈ fs.dirs
        · rcases hb : fs.saveBehavior with _ | _ | _
          · simp [merge_pdfs, h0, hml, hd, hb, Outcome.failed, List.lookup]
          · simp [merge_pdfs, h0, hml, hd, hb, Outcome.failed, hout]
          · exact absurd hb hsave
        · simp [merge_pdfs, h0, hml, hd, Outcome.failed, hout]
  · by_cases hpe : fs.pathExists input_file
    · rcases hlk : fs.files.lookup input_file with _ | pages
      · simp [split_pdf, hpe, hlk, Outcome.failed, hout]
      · rcases hv : validate_page_range start_page end_page ((pages.length : Nat) : Int)
            with _ | err
        · by_cases hd : fs.outputDir output_path ∈ fs.dirs
          · rcases hb : fs.saveBehavior with _ | _ | _
            · simp [split_pdf, hpe, hlk, hv, hd, hb, Outcome.failed, List.lookup]
            · simp [split_pdf, hpe, hlk, hv, hd, hb, Outcome.failed, hout]
            · exact absurd hb hsave
          · simp [split_pdf, hpe, hlk, hv, hd, Outcome.failed, hout]
        · simp [split_pdf, hpe, hlk, hv, Outcome.failed, hout]
    · simp [split_pdf, hpe, Outcome.failed, hout]
  · by_cases hpe : fs.pathExists input_file
    · by_cases hd : fs.outputDir output_path ∈ fs.dirs
      · rcases hb : fs.convertBehavior with _ | _ | _
        · simp [pdf_to_docx, hpe, hd, hb, Outcome.failed, List.lookup]
        · simp [pdf_to_docx, hpe, hd, hb, Outcome.failed, hout]
        · exact absurd hb hconv
      · simp [pdf_to_docx, hpe, hd, Outcome.failed, hout]
    · simp [pdf_to_docx, hpe, Outcome.failed, hout]

theorem C3_witness :
    ((merge_pdfs fsDemo ["A.pdf"] "/work/out.pdf").filesOut.lookup
        "/work/out.pdf").isSome = !(merge_pdfs fsDemo ["A.pdf"] "/work/out.pdf").failed
    ∧ ((split_pdf fsDemo "doc.pdf" 1 1 "/work/out.pdf").filesOut.lookup
        "/work/out.pdf").isSome = !(split_pdf fsDemo "doc.pdf" 1 1 "/work/out.pdf").failed
    ∧ ((pdf_to_docx fsDemo "doc.pdf" "/work/out.pdf").filesOut.lookup
        "/work/out.pdf").isSome = !(pdf_to_docx fsDemo "doc.pdf" "/work/out.pdf").failed :=
  C3_amended_atomic_unless_engine_dirty fsDemo ["A.pdf"] "doc.pdf" "/work/out.pdf" 1 1
    (by decide) (by decide) (by decide)

/-- C9 counterexample: when the conversion call fails, `pdf_to_docx`
raises while the converter handle is still open — `cv.close()` at line
135 is only reached on success, there is no finally around the
converter — so not every operation releases every handle on every exit
path. -/
theorem C9_counterexample_converter_leaked_on_failure :
    (pdf_to_docx fsConvFail "A.pdf" "/work/out.docx").failed = true
    ∧ (pdf_to_docx fsConvFail "A.pdf" "/work/out.docx").openAtExit = 1 := by
  refine ⟨by decide, by decide⟩

/-- C9 amended: `merge_pdfs` and `split_pdf` release every document
handle on every exit path (context managers and finally blocks), and
`pdf_to_docx` releases the converter handle on its success path and on
the validation failure paths that precede the converter construction —
but when the conversion call itself fails, the operation raises with
the converter handle still open. -/
theorem C9_amended_handles_released_except_failed_convert (fs : FS)
    (input_files : List String) (input_file output_path : String)
    (start_page end_page : Int) :
    (merge_pdfs fs input_files output_path).openAtExit = 0
    ∧ (split_pdf fs input_file start_page end_page output_path).openAtExit = 0
    ∧ ((pdf_to_docx fs input_file output_path).result = .ok () →
        (pdf_to_docx fs input_file output_path).openAtExit = 0)
    ∧ (fs.pathExists input_file = true →
        fs.outputDir output_path ∈ fs.dirs →
        fs.convertBehavior ≠ SaveBehavior.succeeds →
        (pdf_to_docx fs input_file output_path).openAtExit = 1) := by
  refine ⟨?_, ?_, ?_, ?_⟩
  · by_cases h0 : input_files.isEmpty
    · simp [merge_pdfs, h0]
    · rcases hml : (mergeLoop fs input_files []).1 with e | pages
      · simp [merge_pdfs, h0, hml]
      · by_cases hd : fs.outputDir output_path ∈ fs.dirs
        · rcases hb : fs.saveBehavior with _ | _ | _ <;>
            simp [merge_pdfs, h0, hml, hd, hb]
        · simp [merge_pdfs, h0, hml, hd]
  · by_cases hpe : fs.pathExists input_file
    · rcases hlk : fs.files.lookup input_file with _ | pages
      · simp [split_pdf, hpe, hlk]
      · rcases hv : validate_page_range start_page end_page ((pages.length : Nat) : Int)
            with _ | err
        · by_cases hd : fs.outputDir output_path ∈ fs.dirs
          · rcases hb : fs.saveBehavior with _ | _ | _ <;>
              simp [split_pdf, hpe, hlk, hv, hd, hb]
          · simp [split_pdf, hpe, hlk, hv, hd]
        · simp [split_pdf, hpe, hlk, hv]
    · simp [split_pdf, hpe]
  · by_cases hpe : fs.pathExists input_file
    · by_cases hd : fs.outputDir output_path ∈ fs.dirs
      · rcases hb : fs.convertBehavior with _ | _ | _ <;>
          simp [pdf_to_docx, hpe, hd, hb]
      · simp [pdf_to_docx, hpe, hd]
    · simp [pdf_to_docx, hpe]
  · intro h1 h2 h3
    rcases hb : fs.convertBehavior with _ | _ | _
    · exact absurd hb h3
    · simp [pdf_to_docx, h1, h2, hb]
    · simp [pdf_to_docx, h1, h2, hb]

theorem C9_witness :
    (merge_pdfs fsConvFail ["A.pdf"] "/work/out.pdf").openAtExit = 0
    ∧ (split_pdf fsConvFail "A.pdf" 1 1 "/work/out.pdf").openAtExit = 0
    ∧ (pdf_to_docx fsDemo "doc.pdf" "/work/out.docx").openAtExit = 0
    ∧ (pdf_to_docx fsConvFail "A.pdf" "/work/out.docx").openAtExit = 1 :=
  ⟨(C9_amended_handles_released_except_failed_convert fsConvFail ["A.pdf"] "A.pdf"
      "/work/out.pdf" 1 1).1,
   (C9_amended_handles_released_except_failed_convert fsConvFail ["A.pdf"] "A.pdf"
      "/work/out.pdf" 1 1).2.1,
   (C9_amended_handles_released_except_failed_convert fsDemo ["A.pdf"] "doc.pdf"
      "/work/out.docx" 1 1).2.2.1 rfl,
   (C9_amended_handles_released_except_failed_convert fsConvFail ["A.pdf"] "A.pdf"
      "/work/out.docx" 1 1).2.2.2 (by decide) (by decide) (by decide)⟩

theorem C5_witness :
    (split_pdf fsDemo "doc.pdf" 1 1 "/work/out.pdf").result = .ok ()
    ∧ (split_pdf fsDemo "doc.pdf" 1 1 "/work/out.pdf").filesOut.lookup "/work/out.pdf"
        = some (extractedPages [0, 1, 2, 3, 4, 5, 6, 7, 8, 9] 1 1)
    ∧ ((extractedPages [0, 1, 2, 3, 4, 5, 6, 7, 8, 9] 1 1).length : Int) = 1 - 1 + 1
    ∧ extractedPages [0, 1, 2, 3, 4, 5, 6, 7, 8, 9] 1 1
        = [0, 1, 2, 3, 4, 5, 6, 7, 8, 9].take 1 :=
  C5_split_extracts_exact_slice fsDemo "doc.pdf" "/work/out.pdf" 1 1
    [0, 1, 2, 3, 4, 5, 6, 7, 8, 9] (by decide) (by decide) (by decide) (by decide)
    (by decide) (by decide)

theorem C6_witness :
    (merge_pdfs fsDemo ["A.pdf", "B.pdf"] "/work/out.pdf").result = .ok ()
    ∧ (merge_pdfs fsDemo ["A.pdf", "B.pdf"] "/work/out.pdf").filesOut.lookup
          "/work/out.pdf"
        = some ((["A.pdf", "B.pdf"].map
            (fun p => (fsDemo.files.lookup p).getD [])).flatten) :=
  C6_merge_concatenates_in_order fsDemo ["A.pdf", "B.pdf"] "/work/out.pdf"
    (by decide) (by decide) (by decide) (by decide)

theorem C7_witness :
    (merge_pdfs
        { fsDemo with files :=
            (split_pdf fsDemo "A.pdf" 1 ((([10, 11, 12] : List Nat).length : Nat) : Int)
              "/work/x.pdf").filesOut }
        ["/work/x.pdf"] "/work/y.pdf").result = .ok ()
    ∧ ((merge_pdfs
        { fsDemo with files :=
            (split_pdf fsDemo "A.pdf" 1 ((([10, 11, 12] : List Nat).length : Nat) : Int)
              "/work/x.pdf").filesOut }
        ["/work/x.pdf"] "/work/y.pdf").filesOut.lookup "/work/y.pdf"
        = some [10, 11, 12]) :=
  C7_extract_all_then_merge_roundtrip fsDemo "A.pdf" "/work/x.pdf" "/work/y.pdf"
    [10, 11, 12] (by decide) (by decide) (by decide) (by decide) (by decide)

theorem C10_witness :
    (split_pdf fsDemo "empty.pdf" 1 1 "/work/out.pdf").failed = true
    ∧ (split_pdf fsDemo "empty.pdf" 1 1 "/work/out.pdf").filesOut = fsDemo.files
    ∧ (split_pdf fsDemo "empty.pdf" 1 1 "/work/out.pdf").trace.any Eff.isWrite = false :=
  C10_split_zero_page_document_always_fails fsDemo "empty.pdf" "/work/out.pdf" 1 1
    (by decide)

end PdfEditor
